import Mathlib

/-!
Verification of the ScoutPulse video-processing pipeline and its
real-time notification fanout, as a shallow embedding in Lean 4.

The embedding follows `backend/video_processor.py` and
`backend/websocket_manager.py`:

* Pure helpers model the Python primitives actually used by the code
  (`round`, `int`, `str.startswith`, `str.endswith`, `M:SS` formatting).
* `classifyHighlight` and `createHighlightFromEvent` embed
  `VideoProcessor._create_highlight_from_event`.
* `eventsForHighlights` embeds the confidence sort / cap-20 selection of
  `VideoProcessor.process_video_for_player`.
* `simulateProcessing`, `realProcessing` and `processVideoForPlayer`
  embed the fallback logic and the configured branch's envelope
  construction; external-collaborator call outcomes are inputs, and the
  values that Python draws from `uuid.uuid4()` are passed in explicitly
  as arguments, so dependence on them is visible.
* `trimDuration` embeds the duration clamp of `VideoProcessor._trim_video`.
* `processVideoTempRemains` embeds the temp-directory lifecycle of the
  download / cleanup paths.
* `broadcast` / `broadcast_to_player` embed `ConnectionManager.broadcast`
  and `ConnectionManager.broadcast_to_player`.

Numbers are embedded as `ℚ` (Python floats treated as exact rationals)
and `ℤ`; fallible steps are embedded as `Except` / `Option` values.
-/

namespace ScoutPulse

/-! ### Python string primitives

`String.startsWith` / `String.endsWith` from the Lean library do not
reduce well inside the kernel, so the Python primitives are modelled on
the underlying character lists, which is exactly the semantics of
`str.startswith` / `str.endswith`. -/

/-- Models Python `s.startswith(p)`: `p.data` is a prefix of `s.data`. -/
def strStartsWith (s p : String) : Bool := p.data.isPrefixOf s.data

/-- Models Python `s.endswith(p)`: `p.data` is a suffix of `s.data`. -/
def strEndsWith (s p : String) : Bool := p.data.isSuffixOf s.data

/-! ### Python numeric primitives -/

/-- Models Python `round(q)` (banker's rounding, round half to even). -/
def pyRound (q : ℚ) : ℤ :=
  let f := Rat.floor q
  let r := q - f
  if r < 1/2 then f
  else if 1/2 < r then f + 1
  else if 2 ∣ f then f else f + 1

/-- Models Python `int(q)` on a number: truncation toward zero. -/
def pyInt (q : ℚ) : ℤ := if 0 ≤ q then Rat.floor q else -(Rat.floor (-q))

/-- Models Python `f"{z:02d}"` for the second field of the duration string:
two digits, zero padded on the left (only reached with `0 ≤ z < 60`). -/
def pad2 (z : ℤ) : String := if z < 10 then "0" ++ toString z else toString z

/-- Models `f"{int(d // 60)}:{int(d % 60):02d}"` from
`_create_highlight_from_event`; Python `//` and `%` are floor division
and floor modulus, i.e. `Int.fdiv` / `Int.fmod`. -/
def durationString (d : ℤ) : String :=
  toString (d.fdiv 60) ++ ":" ++ pad2 (d.fmod 60)

/-- Models Python `f"{q:.1f}"` (one decimal place, used only inside the
AI-insight analysis sentence). -/
def fmt1 (q : ℚ) : String :=
  let t := pyRound (q * 10)
  toString (t.fdiv 10) ++ "." ++ toString (t.fmod 10)

/-! ### Data model -/

/-- A detected event as consumed by `_create_highlight_from_event` and
produced by `_simulate_processing` and the analyzer's normalization
(twelvelabs_integration.py lines 244–273).  The Python dict key `end` is
the reserved word `end` in Lean, so it is named `stop` here.
`description`, `video_id` and `clip_id` are optional dict entries.
`clip_url` and `video_url` are the optional dict keys read defensively by
`_resolve_event_video_url`; no event producer in this repository sets
them, hence the `none` defaults. -/
structure Event where
  type : String
  start : ℚ
  stop : ℚ
  confidence : ℚ
  description : Option String
  video_id : Option String
  clip_id : Option String
  clip_url : Option String := none
  video_url : Option String := none
deriving Repr, DecidableEq

/-- Embeds `schemas.Timestamp` (`start: int`, `end: int`); `end` renamed `stop`. -/
structure Timestamp where
  start : ℤ
  stop : ℤ
deriving Repr, DecidableEq

/-- Embeds `schemas.AIInsights`. -/
structure AIInsights where
  confidence : ℤ
  analysis : String
  key_moments : List String
deriving Repr, DecidableEq

/-- Embeds `schemas.VideoHighlightCreate`.  The `match` field is the reserved
word `match` in Lean, so it is named `matchName`; the `datetime` field
`date` is embedded as an opaque string. -/
structure VideoHighlightCreate where
  id : String
  title : String
  thumbnail : String
  video_url : String
  duration : String
  matchName : String
  date : String
  type : String
  tags : List String
  player_id : String
  description : String
  timestamp : Timestamp
  ai_insights : AIInsights
deriving Repr, DecidableEq

/-! ### Highlight synthesis (`_create_highlight_from_event`) -/

/-- The event types of the first classification rule. -/
def strengthTypes : List String := ["goal", "assist", "dribble", "pass"]

/-- The event types of the second classification rule. -/
def weaknessTypes : List String := ["foul", "offside"]

/-- The strength/weakness/neutral decision of
`_create_highlight_from_event` (video_processor.py lines 298–304),
applied in order, first match wins. -/
def classifyHighlight (event_type : String) (confidence : ℚ) : String :=
  if event_type ∈ strengthTypes ∧ 0.75 < confidence then "strength"
  else if event_type ∈ weaknessTypes ∨ confidence < 0.6 then "weakness"
  else "neutral"

/-- Models Python `event_type.title()` for the single-word event types
used by the pipeline (capitalize the first letter). -/
def pyTitle (s : String) : String := s.capitalize

/-- Embeds `VideoProcessor._create_highlight_from_event`.  `hid` is the
value Python draws from `uuid.uuid4()` for the record id, passed in
explicitly. -/
def createHighlightFromEvent (event : Event)
    (player_id player_name video_url match_name match_date video_id hid :
      String) : VideoHighlightCreate :=
  let event_type := event.type
  let confidence := event.confidence
  let highlight_type := classifyHighlight event_type confidence
  let title :=
    if event_type = "goal" then player_name ++ " - Goal"
    else if event_type = "assist" then player_name ++ " - Assist"
    else if event_type = "dribble" then player_name ++ " - Dribbling Sequence"
    else player_name ++ " - " ++ pyTitle event_type
  let start_time := pyRound event.start
  let end_time := pyRound event.stop
  let duration_seconds := end_time - start_time
  let duration_str := durationString duration_seconds
  let tags :=
    [pyTitle event_type]
      ++ (if 0.9 < confidence then ["Excellent"] else [])
      ++ (if event_type = "goal" ∨ event_type = "assist" then
            ["Key Moment", "Highlight"] else [])
  { id := hid
    title := title
    thumbnail := "/thumbnails/" ++ video_id ++ "_" ++ toString start_time ++ ".jpg"
    video_url := video_url
    duration := duration_str
    matchName := match_name
    date := match_date
    type := highlight_type
    tags := tags
    player_id := player_id
    description := event.description.getD (player_name ++ " " ++ event_type)
    timestamp := { start := start_time, stop := end_time }
    ai_insights :=
      { confidence := pyInt (confidence * 100)
        analysis := "Detected " ++ event_type ++ " with "
          ++ fmt1 (confidence * 100) ++ "% confidence"
        key_moments := [event_type ++ " at " ++ toString start_time ++ "s"] } }

/-- C1: the classification assigned by highlight synthesis is the pure
function `classifyHighlight` of `(type, confidence)`, and that function
satisfies exactly the ordered first-match-wins rules: strength iff
type ∈ {goal, assist, dribble, pass} and confidence > 0.75; weakness iff
rule 1 failed and (type ∈ {foul, offside} or confidence < 0.6); neutral
otherwise; in particular foul/0.5 is a weakness and pass/0.8 a strength. -/
theorem c1_classification_pure_ordered_rule :
    (∀ (e : Event) (pid pname url mname mdate vid hid : String),
      (createHighlightFromEvent e pid pname url mname mdate vid hid).type
        = classifyHighlight e.type e.confidence) ∧
    (∀ (t : String) (c : ℚ),
      classifyHighlight t c = "strength" ↔ t ∈ strengthTypes ∧ 0.75 < c) ∧
    (∀ (t : String) (c : ℚ),
      classifyHighlight t c = "weakness" ↔
        ¬(t ∈ strengthTypes ∧ 0.75 < c) ∧ (t ∈ weaknessTypes ∨ c < 0.6)) ∧
    (∀ (t : String) (c : ℚ),
      classifyHighlight t c = "neutral" ↔
        ¬(t ∈ strengthTypes ∧ 0.75 < c) ∧ ¬(t ∈ weaknessTypes ∨ c < 0.6)) ∧
    classifyHighlight "foul" 0.5 = "weakness" ∧
    classifyHighlight "pass" 0.8 = "strength" := by
  refine ⟨fun e pid pname url mname mdate vid hid => rfl, ?_, ?_, ?_, ?_, ?_⟩
  · intro t c
    rw [classifyHighlight]
    split_ifs with h1 h2
    · simp [h1]
    · simp [h1, h2]
    · simp [h1, h2]
  · intro t c
    rw [classifyHighlight]
    split_ifs with h1 h2
    · simp [h1]
    · simp [h1, h2]
    · simp [h1, h2]
  · intro t c
    rw [classifyHighlight]
    split_ifs with h1 h2
    · simp [h1]
    · simp [h1, h2]
    · simp [h1, h2]
  · rw [classifyHighlight]
    norm_num [strengthTypes, weaknessTypes]
  · rw [classifyHighlight]
    norm_num [strengthTypes]

/-! ### Event selection cap (`process_video_for_player`, step 4) -/

/-- The sort key of `sorted(..., key=lambda ev: ev.get("confidence", 0),
reverse=True)`: descending confidence. -/
def byConfidenceDesc : Event → Event → Bool :=
  fun a b => decide (b.confidence ≤ a.confidence)

/-- Embeds the event selection of `process_video_for_player`
(video_processor.py lines 222–227): sort detected events by descending
confidence (Python `sorted` = stable merge sort) and keep the first 20. -/
def eventsForHighlights (events : List Event) : List Event :=
  (events.mergeSort byConfidenceDesc).take 20

theorem byConfidenceDesc_trans :
    ∀ a b c : Event, byConfidenceDesc a b → byConfidenceDesc b c →
      byConfidenceDesc a c := by
  intro a b c h1 h2
  simp only [byConfidenceDesc, decide_eq_true_eq] at *
  exact le_trans h2 h1

theorem byConfidenceDesc_total :
    ∀ a b : Event, byConfidenceDesc a b || byConfidenceDesc b a := by
  intro a b
  simp only [byConfidenceDesc]
  simpa using le_total b.confidence a.confidence

/-- C2: a run synthesizes highlights from at most 20 events; the selected
events are (a multiset-)subset of the detected events, together with the
dropped events they are exactly the detected events, and every dropped
event's confidence is at most every selected event's confidence, i.e. the
20 highest-confidence events are selected. -/
theorem c2_highlight_cap_top_confidence (events : List Event) :
    (eventsForHighlights events).length = min 20 events.length ∧
    (eventsForHighlights events).Subperm events ∧
    (eventsForHighlights events
      ++ (events.mergeSort byConfidenceDesc).drop 20).Perm events ∧
    (∀ a ∈ eventsForHighlights events,
      ∀ b ∈ (events.mergeSort byConfidenceDesc).drop 20,
        b.confidence ≤ a.confidence) := by
  refine ⟨?_, ?_, ?_, ?_⟩
  · rw [eventsForHighlights, List.length_take, List.length_mergeSort]
  · exact ((List.take_sublist _ _).subperm).trans
      (List.mergeSort_perm events _).subperm
  · rw [eventsForHighlights, List.take_append_drop]
    exact List.mergeSort_perm events _
  · have hs := List.sorted_mergeSort
      byConfidenceDesc_trans byConfidenceDesc_total events
    rw [← List.take_append_drop 20 (events.mergeSort byConfidenceDesc)]
      at hs
    have := (List.pairwise_append.mp hs).2.2
    intro a ha b hb
    have h := this a ha b hb
    simpa [byConfidenceDesc] using h

/-! ### Duration and AI-insight invariants of `_create_highlight_from_event` -/

/-- C7: for a highlight built from an event whose rounded timestamps
satisfy `end >= start`, the stored time range is the pair of rounded
timestamps, and the duration string is `M:SS` with
`60 * M + SS = timeRange.end - timeRange.start`; a 75–90s event yields
duration "0:15". -/
theorem c7_duration_matches_timerange (e : Event)
    (pid pname url mname mdate vid hid : String)
    (h : pyRound e.start ≤ pyRound e.stop) :
    (createHighlightFromEvent e pid pname url mname mdate vid hid).timestamp.start
        = pyRound e.start ∧
    (createHighlightFromEvent e pid pname url mname mdate vid hid).timestamp.stop
        = pyRound e.stop ∧
    (∃ m s : ℤ, 0 ≤ m ∧ 0 ≤ s ∧ s < 60 ∧
      (createHighlightFromEvent e pid pname url mname mdate vid hid).duration
          = toString m ++ ":" ++ pad2 s ∧
      60 * m + s = pyRound e.stop - pyRound e.start) ∧
    (createHighlightFromEvent
        { type := "goal", start := 75, stop := 90, confidence := 0.92,
          description := none, video_id := none, clip_id := none }
        pid pname url mname mdate vid hid).duration = "0:15" := by
  have hd : 0 ≤ pyRound e.stop - pyRound e.start := sub_nonneg.mpr h
  refine ⟨rfl, rfl, ?_, ?_⟩
  · refine ⟨(pyRound e.stop - pyRound e.start).fdiv 60,
      (pyRound e.stop - pyRound e.start).fmod 60, ?_, ?_, ?_, rfl, ?_⟩
    · exact Int.fdiv_nonneg hd (by norm_num)
    · exact Int.fmod_nonneg' _ (by norm_num)
    · exact Int.fmod_lt_of_pos _ (by norm_num)
    · exact Int.fdiv_add_fmod _ 60
  · have h75 : pyRound (75 : ℚ) = 75 := by rw [pyRound]; norm_num [Rat.floor]
    have h90 : pyRound (90 : ℚ) = 90 := by rw [pyRound]; norm_num [Rat.floor]
    show durationString (pyRound (90 : ℚ) - pyRound (75 : ℚ)) = "0:15"
    rw [h75, h90]
    decide

/-- Witness for `c7_duration_matches_timerange` at a concrete 75–90s goal
event. -/
theorem c7_duration_matches_timerange_witness :
    pyRound ((75 : ℚ)) ≤ pyRound ((90 : ℚ)) ∧
    ((createHighlightFromEvent
        { type := "goal", start := 75, stop := 90, confidence := 0.92,
          description := none, video_id := none, clip_id := none }
        "p1" "Test Player" "http://v" "m" "2024-01-01" "vid" "hid").timestamp.start
        = pyRound ((75 : ℚ)) ∧
    (createHighlightFromEvent
        { type := "goal", start := 75, stop := 90, confidence := 0.92,
          description := none, video_id := none, clip_id := none }
        "p1" "Test Player" "http://v" "m" "2024-01-01" "vid" "hid").timestamp.stop
        = pyRound ((90 : ℚ)) ∧
    (∃ m s : ℤ, 0 ≤ m ∧ 0 ≤ s ∧ s < 60 ∧
      (createHighlightFromEvent
          { type := "goal", start := 75, stop := 90, confidence := 0.92,
            description := none, video_id := none, clip_id := none }
          "p1" "Test Player" "http://v" "m" "2024-01-01" "vid" "hid").duration
          = toString m ++ ":" ++ pad2 s ∧
      60 * m + s = pyRound ((90 : ℚ)) - pyRound ((75 : ℚ))) ∧
    (createHighlightFromEvent
        { type := "goal", start := 75, stop := 90, confidence := 0.92,
          description := none, video_id := none, clip_id := none }
        "p1" "Test Player" "http://v" "m" "2024-01-01" "vid" "hid").duration
        = "0:15") := by
  have h : pyRound ((75 : ℚ)) ≤ pyRound ((90 : ℚ)) := by
    rw [show pyRound ((75 : ℚ)) = 75 from by rw [pyRound]; norm_num [Rat.floor],
      show pyRound ((90 : ℚ)) = 90 from by rw [pyRound]; norm_num [Rat.floor]]
    norm_num
  exact ⟨h, c7_duration_matches_timerange
    { type := "goal", start := 75, stop := 90, confidence := 0.92,
      description := none, video_id := none, clip_id := none }
    "p1" "Test Player" "http://v" "m" "2024-01-01" "vid" "hid" h⟩

/-- C8 counterexample: the code stores `int(confidence * 100)`
(truncation), not `round(confidence * 100)`: at confidence 0.876 the
stored percent is 87 while the claimed rounding gives 88. -/
theorem c8_confidence_round_counterexample :
    (createHighlightFromEvent
        { type := "goal", start := 0, stop := 10, confidence := 0.876,
          description := none, video_id := none, clip_id := none }
        "p1" "Test Player" "http://v" "m" "2024-01-01" "vid" "hid").ai_insights.confidence
      = 87 ∧
    round ((0.876 : ℚ) * 100) = 88 ∧ (87 : ℤ) ≠ 88 := by
  refine ⟨?_, ?_, by norm_num⟩
  · show pyInt ((0.876 : ℚ) * 100) = 87
    rw [pyInt]
    norm_num [Rat.floor]
  · rw [round_eq, Rat.floor_def]
    norm_num

/-- C8 amended: the AI insight's confidence percent equals the truncation
toward zero `int(confidence * 100)`, which for nonnegative confidence is
the floor of `confidence * 100`. -/
theorem c8_confidence_percent_is_floor (e : Event)
    (pid pname url mname mdate vid hid : String)
    (h : 0 ≤ e.confidence) :
    (createHighlightFromEvent e pid pname url mname mdate vid hid).ai_insights.confidence
      = ⌊e.confidence * 100⌋ := by
  show pyInt (e.confidence * 100) = ⌊e.confidence * 100⌋
  rw [pyInt, if_pos (mul_nonneg h (by norm_num))]
  rw [Rat.floor_def, Rat.floor_def']

/-- Witness for `c8_confidence_percent_is_floor` at confidence 0.92. -/
theorem c8_confidence_percent_is_floor_witness :
    (0 : ℚ) ≤ 0.92 ∧
    (createHighlightFromEvent
        { type := "goal", start := 75, stop := 90, confidence := 0.92,
          description := none, video_id := none, clip_id := none }
        "p1" "Test Player" "http://v" "m" "2024-01-01" "vid" "hid").ai_insights.confidence
      = ⌊(0.92 : ℚ) * 100⌋ := by
  refine ⟨by norm_num, c8_confidence_percent_is_floor
    { type := "goal", start := 75, stop := 90, confidence := 0.92,
      description := none, video_id := none, clip_id := none }
    "p1" "Test Player" "http://v" "m" "2024-01-01" "vid" "hid" (by norm_num)⟩

/-! ### Trim clamp (`_trim_video`) -/

/-- Embeds the trim-duration decision of `VideoProcessor._trim_video`
(video_processor.py lines 91–96): `none` means the function returns the
input path untrimmed (the `max_seconds <= 0` early return), `some d`
means ffmpeg is invoked with `-t d`. -/
def trimDuration (max_seconds : ℤ) : Option ℤ :=
  if max_seconds ≤ 0 then none
  else some (max 10 (min max_seconds 7200))

/-- C9 counterexample: for `max_seconds = 0` the code skips trimming
entirely (early return), so no clamped duration
`max 10 (min 0 7200) = 10` is applied. -/
theorem c9_trim_clamp_counterexample :
    trimDuration 0 ≠ some (max 10 (min 0 7200)) := by
  intro h
  rw [trimDuration, if_pos le_rfl] at h
  exact Option.noConfusion h

/-- C9 amended: for every positive `max_seconds`, the trim step applies
duration `max 10 (min max_seconds 7200)`, which lies in the range
10–7200; for `max_seconds ≤ 0` no trimming occurs at all. -/
theorem c9_trim_clamp_positive (m : ℤ) (h : 0 < m) :
    trimDuration m = some (max 10 (min m 7200)) ∧
    10 ≤ max 10 (min m 7200) ∧ max 10 (min m 7200) ≤ 7200 := by
  refine ⟨?_, le_max_left _ _, ?_⟩
  · rw [trimDuration, if_neg (not_le.mpr h)]
  · exact max_le (by norm_num) (le_trans (min_le_right _ _) (by norm_num))

/-- Witness for `c9_trim_clamp_positive` at the default 600s cap. -/
theorem c9_trim_clamp_positive_witness :
    (0 : ℤ) < 600 ∧
    (trimDuration 600 = some (max 10 (min 600 7200)) ∧
      10 ≤ max 10 (min (600 : ℤ) 7200) ∧ max 10 (min (600 : ℤ) 7200) ≤ 7200) :=
  ⟨by norm_num, c9_trim_clamp_positive 600 (by norm_num)⟩

/-! ### Hosted-platform URL classification (`_is_youtube_url`) -/

/-- The fixed domain suffixes of `_is_youtube_url`. -/
def youtubeDomains : List String :=
  ["youtube.com", "youtu.be", "youtube-nocookie.com"]

/-- Embeds `VideoProcessor._is_youtube_url` (video_processor.py lines
35–41) over the components of the parsed URL; `urllib.parse.urlparse` is
standard-library parsing treated as the collaborator producing
`(scheme, hostname)`, with `hostname = none` when the URL has no host
(the code substitutes `""` via `parsed.hostname or ""`). -/
def isYoutubeUrl (scheme : String) (hostname : Option String) : Bool :=
  if !(strStartsWith scheme "http") then false
  else youtubeDomains.any (fun d => strEndsWith (hostname.getD "") d)

/-- C10: the classifier accepts exactly the URLs whose scheme starts with
"http" and whose hostname string ends with one of the three fixed domain
suffixes; in particular it accepts the unrelated hostname
"evilyoutube.com", and rejects any non-http scheme and any URL with a
missing hostname. -/
theorem c10_youtube_url_suffix_match :
    (∀ (scheme : String) (hostname : Option String),
      isYoutubeUrl scheme hostname = true ↔
        (strStartsWith scheme "http" = true ∧
          ∃ d ∈ youtubeDomains, strEndsWith (hostname.getD "") d = true)) ∧
    isYoutubeUrl "https" (some "evilyoutube.com") = true ∧
    isYoutubeUrl "https" (some "www.youtube.com") = true ∧
    isYoutubeUrl "ftp" (some "youtube.com") = false ∧
    (∀ scheme : String, isYoutubeUrl scheme none = false) := by
  have e1 : strEndsWith "" "youtube.com" = false := by decide
  have e2 : strEndsWith "" "youtu.be" = false := by decide
  have e3 : strEndsWith "" "youtube-nocookie.com" = false := by decide
  refine ⟨?_, by decide, by decide, by decide, ?_⟩
  · intro scheme hostname
    rw [isYoutubeUrl]
    cases hs : strStartsWith scheme "http" <;>
      simp [hs, List.any_eq_true]
  · intro scheme
    rw [isYoutubeUrl]
    cases hs : strStartsWith scheme "http" <;>
      simp [hs, youtubeDomains, e1, e2, e3]

/-! ### Clip-URL resolution (`_resolve_event_video_url`) -/

/-- The components of a parsed URL, as produced by the standard-library
collaborator `urllib.parse.urlparse` on the source video URL. -/
structure ParsedUrl where
  scheme : String
  hostname : Option String
  path : String
  query : String
deriving Repr, DecidableEq

/-- `_is_youtube_url` applied to an already-parsed URL. -/
def isYoutubeUrlParsed (u : ParsedUrl) : Bool :=
  isYoutubeUrl u.scheme u.hostname

/-- Models Python `a or b` on two optional strings
(`event.get("clip_url") or event.get("video_url")`): `None` and the
empty string are falsy. -/
def pyOrStr (a b : Option String) : Option String :=
  match a with
  | some s => if s = "" then b else some s
  | none => b

/-- The `v=` query-parameter extraction of `_resolve_event_video_url`
(video_processor.py lines 370–374): the first `&`-separated part of the
query starting with `v=`, split at its first `=` (which, for a part
starting with `v=`, is everything after the first two characters);
empty string when no such part exists. -/
def vFromQuery (query : String) : String :=
  match (query.splitOn "&").find? (fun part => strStartsWith part "v=") with
  | some part => part.drop 2
  | none => ""

/-- Embeds `VideoProcessor._resolve_event_video_url` (video_processor.py
lines 351–378) over the parsed source URL: (1) the event's own clip URL
when present and non-blank, (2) for a hosted YouTube source the
canonical embed URL derived from the `youtu.be` path
(`path.lstrip("/")`) or from the `v=` query parameter, (3) otherwise the
original source reference. -/
def resolveEventVideoUrl (event : Event) (source_video_url : String)
    (sourceParsed : ParsedUrl) : String :=
  let fromSource :=
    if source_video_url ≠ "" ∧ isYoutubeUrlParsed sourceParsed = true then
      let video_id :=
        match sourceParsed.hostname with
        | some h =>
            if h ≠ "" ∧ strEndsWith h "youtu.be" = true then
              sourceParsed.path.dropWhile (fun c => c = '/')
            else vFromQuery sourceParsed.query
        | none => vFromQuery sourceParsed.query
      if video_id ≠ "" then "https://www.youtube.com/embed/" ++ video_id
      else source_video_url
    else source_video_url
  match pyOrStr event.clip_url event.video_url with
  | some clip_url => if clip_url.trim ≠ "" then clip_url else fromSource
  | none => fromSource

/-! ### Simulated analysis (`_simulate_processing`) and pipeline envelope -/

/-- One entry of the `key_moments` list of `_simulate_processing`. -/
structure KeyMoment where
  time : ℚ
  description : String
  importance : ℚ
  event_type : String
deriving Repr, DecidableEq

/-- The `performance_metrics` dict of the analysis result. -/
structure PerformanceMetrics where
  success_rate : ℚ
  intensity : ℚ
  technical_quality : ℚ
deriving Repr, DecidableEq

/-- The analysis dict built by `_simulate_processing`. -/
structure Analysis where
  video_id : String
  analysis_id : String
  status : String
  detected_events : List Event
  key_moments : List KeyMoment
  performance_metrics : PerformanceMetrics
  total_events : ℕ
  ai_summary : String
deriving Repr, DecidableEq

/-- The per-highlight summary dict appended to `created_highlights`: the
simulated loop appends `id`, `title`, `type`, `timestamp`
(video_processor.py lines 457–464); the real-branch loop additionally
appends `video_url` (lines 244–250), so that key is optional here and
`none` in the simulated loop. -/
structure HighlightSummary where
  id : String
  title : String
  type : String
  timestamp : Timestamp
  video_url : Option String := none
deriving Repr, DecidableEq

/-- The envelope returned by `process_video_for_player` /
`_simulate_processing`. -/
structure ProcessResult where
  status : String
  video_id : String
  player_id : String
  player_name : String
  matchName : String
  analysis : Analysis
  highlights_created : ℕ
  highlights : List HighlightSummary
  message : String
deriving Repr, DecidableEq

/-- The fixed simulated event set of `_simulate_processing`
(video_processor.py lines 393–418). -/
def simulatedEvents (player_name video_id : String) : List Event :=
  [ { type := "goal", start := 75, stop := 90, confidence := 0.92,
      description := some (player_name ++ " scores from inside the box"),
      video_id := some video_id, clip_id := none },
    { type := "assist", start := 180, stop := 195, confidence := 0.88,
      description := some (player_name ++ " provides a key pass leading to a goal"),
      video_id := some video_id, clip_id := none },
    { type := "dribble", start := 260, stop := 275, confidence := 0.84,
      description := some (player_name ++ " beats two defenders"),
      video_id := some video_id, clip_id := none } ]

/-- The highlight-creation loop of `_simulate_processing`: one
`_create_highlight_from_event` + `create_highlight` per simulated event.
`hids idx` is the value Python draws from `uuid.uuid4()` for the record
id of the `idx`-th iteration; the persistence collaborator
`crud.create_highlight` is modelled as succeeding and returning the
record it was given. -/
def buildSimHighlights (events : List Event) (idx : ℕ)
    (player_id player_name video_url match_name match_date video_id : String)
    (hids : ℕ → String) : List HighlightSummary :=
  match events with
  | [] => []
  | event :: rest =>
      let highlight := createHighlightFromEvent event player_id player_name
        video_url match_name match_date video_id (hids idx)
      { id := highlight.id, title := highlight.title,
        type := highlight.type, timestamp := highlight.timestamp }
        :: buildSimHighlights rest (idx + 1) player_id player_name video_url
            match_name match_date video_id hids

/-- Embeds `VideoProcessor._simulate_processing` (video_processor.py
lines 380–481).  `uuid` is the value Python draws from `uuid.uuid4()` for
the simulated video id in this invocation, passed in explicitly so that
the result's dependence on the draw is visible. -/
def simulateProcessing
    (player_id player_name video_url match_name match_date : String)
    (auto_create_highlights : Bool) (uuid : String) (hids : ℕ → String) :
    ProcessResult :=
  let video_id := "simulated-" ++ uuid
  let simulated_events := simulatedEvents player_name video_id
  let key_moments := simulated_events.map fun event =>
    ({ time := event.start, description := event.description.getD "",
       importance := event.confidence, event_type := event.type } : KeyMoment)
  let analysis : Analysis :=
    { video_id := video_id
      analysis_id := "simulated_" ++ video_id
      status := "simulated"
      detected_events := simulated_events
      key_moments := key_moments
      performance_metrics :=
        { success_rate := 0.9, intensity := 0.6, technical_quality := 0.75 }
      total_events := simulated_events.length
      ai_summary := "Simulated analysis for " ++ player_name
        ++ ": influential performance with goals, assists, and ball progression." }
  let created_highlights :=
    if auto_create_highlights then
      buildSimHighlights simulated_events 0 player_id player_name video_url
        match_name match_date video_id hids
    else []
  { status := "success"
    video_id := video_id
    player_id := player_id
    player_name := player_name
    matchName := match_name
    analysis := analysis
    highlights_created := created_highlights.length
    highlights := created_highlights
    message := "Twelve Labs unavailable. Returned simulated analysis and highlights for local testing." }

/-- The outcomes of the awaited external-collaborator calls inside the
`try` of the configured branch of `process_video_for_player`
(video_processor.py lines 185–266); `none` / `downloadRaises = true`
means that call raised, sending control to the outer `except`.
`upload` is `twelve_labs.upload_video` (the returned video id),
`analyze` is `twelve_labs.analyze_video` (the analysis dict; its
`ai_summary` key is absent until line 217 assigns it), `summary` is
`twelve_labs.generate_summary`. -/
structure RealBranchSteps where
  downloadRaises : Bool
  upload : Option String
  analyze : Option Analysis
  summary : Option String
deriving Repr, DecidableEq

/-- Whether some step of the configured branch raises for this run: the
YouTube download (only attempted for hosted-platform URLs), the upload,
the analysis, or the summary call. -/
def someRealStepRaises (steps : RealBranchSteps)
    (sourceParsed : ParsedUrl) : Bool :=
  (isYoutubeUrlParsed sourceParsed && steps.downloadRaises)
    || steps.upload.isNone || steps.analyze.isNone || steps.summary.isNone

/-- The real-branch highlight loop of `process_video_for_player`
(video_processor.py lines 230–254): one `_create_highlight_from_event`
with the resolved clip URL and one `create_highlight` per selected
event; per-item persistence failures are logged and skipped
(`crud.create_highlight` is the store collaborator, modelled as
succeeding and returning the record it was given); each appended
summary dict carries id, title, type, timestamp and video_url.
`hids idx` is the value Python draws from `uuid.uuid4()` for the record
id of the `idx`-th iteration. -/
def buildRealHighlights (events : List Event) (idx : ℕ)
    (player_id player_name video_url match_name match_date video_id :
      String) (sourceParsed : ParsedUrl) (hids : ℕ → String) :
    List HighlightSummary :=
  match events with
  | [] => []
  | event :: rest =>
      let highlight := createHighlightFromEvent event player_id player_name
        (resolveEventVideoUrl event video_url sourceParsed) match_name
        match_date video_id (hids idx)
      { id := highlight.id, title := highlight.title,
        type := highlight.type, timestamp := highlight.timestamp,
        video_url := some highlight.video_url }
        :: buildRealHighlights rest (idx + 1) player_id player_name
            video_url match_name match_date video_id sourceParsed hids

/-- Embeds the configured branch's success envelope of
`process_video_for_player` (video_processor.py lines 214–266): the
summary is attached to the analysis dict
(`analysis["ai_summary"] = summary`), up to 20 highlights are
synthesized from the detected events sorted by descending confidence
(`eventsForHighlights`) when `auto_create_highlights` is set and events
were detected, and the envelope with the hard-coded
`"status": "success"` and the "Successfully processed video." message
is returned. -/
def realProcessing (video_id : String) (analysisIn : Analysis)
    (summaryText : String)
    (player_id player_name video_url match_name match_date : String)
    (sourceParsed : ParsedUrl) (auto_create_highlights : Bool)
    (hids : ℕ → String) : ProcessResult :=
  let analysis := { analysisIn with ai_summary := summaryText }
  let created_highlights :=
    if auto_create_highlights ∧ analysis.detected_events ≠ [] then
      buildRealHighlights (eventsForHighlights analysis.detected_events) 0
        player_id player_name video_url match_name match_date video_id
        sourceParsed hids
    else []
  { status := "success"
    video_id := video_id
    player_id := player_id
    player_name := player_name
    matchName := match_name
    analysis := analysis
    highlights_created := created_highlights.length
    highlights := created_highlights
    message := "Successfully processed video. Created "
      ++ toString created_highlights.length ++ " highlights." }

/-- Embeds the control flow of `VideoProcessor.process_video_for_player`
(video_processor.py lines 144–280).  `playerFound` is whether the DB
lookup returns a player (the raised `ValueError` is embedded as
`Except.error`), `useTwelveLabs` is `self.use_twelve_labs`,
`sourceParsed` is the parsed source URL and `steps` the outcomes of the
configured branch's collaborator calls: the unconfigured branch and
every raising step fall back to `_simulate_processing` (the outer
`except`), and when every step succeeds the real success envelope of
lines 256–266 is returned.  `uuid` / `hids` are the values Python draws
from `uuid.uuid4()`. -/
def processVideoForPlayer (playerFound useTwelveLabs : Bool)
    (steps : RealBranchSteps)
    (player_id player_name video_url match_name match_date : String)
    (sourceParsed : ParsedUrl)
    (auto_create_highlights : Bool) (uuid : String) (hids : ℕ → String) :
    Except String ProcessResult :=
  if !playerFound then .error ("Player " ++ player_id ++ " not found")
  else if !useTwelveLabs then
    .ok (simulateProcessing player_id player_name video_url match_name
      match_date auto_create_highlights uuid hids)
  else if isYoutubeUrlParsed sourceParsed && steps.downloadRaises then
    .ok (simulateProcessing player_id player_name video_url match_name
      match_date auto_create_highlights uuid hids)
  else
    match steps.upload with
    | none => .ok (simulateProcessing player_id player_name video_url
        match_name match_date auto_create_highlights uuid hids)
    | some video_id =>
      match steps.analyze with
      | none => .ok (simulateProcessing player_id player_name video_url
          match_name match_date auto_create_highlights uuid hids)
      | some analysisIn =>
        match steps.summary with
        | none => .ok (simulateProcessing player_id player_name video_url
            match_name match_date auto_create_highlights uuid hids)
        | some summaryText =>
            .ok (realProcessing video_id analysisIn summaryText player_id
              player_name video_url match_name match_date sourceParsed
              auto_create_highlights hids)

theorem pyRound_num_75 : pyRound (75 : ℚ) = 75 := by
  rw [pyRound]; norm_num [Rat.floor]

theorem pyRound_num_90 : pyRound (90 : ℚ) = 90 := by
  rw [pyRound]; norm_num [Rat.floor]

theorem pyRound_num_180 : pyRound (180 : ℚ) = 180 := by
  rw [pyRound]; norm_num [Rat.floor]

theorem pyRound_num_195 : pyRound (195 : ℚ) = 195 := by
  rw [pyRound]; norm_num [Rat.floor]

theorem pyRound_num_260 : pyRound (260 : ℚ) = 260 := by
  rw [pyRound]; norm_num [Rat.floor]

theorem pyRound_num_275 : pyRound (275 : ℚ) = 275 := by
  rw [pyRound]; norm_num [Rat.floor]

theorem classify_goal_92 : classifyHighlight "goal" 0.92 = "strength" := by
  rw [classifyHighlight]; norm_num [strengthTypes]

theorem classify_assist_88 : classifyHighlight "assist" 0.88 = "strength" := by
  rw [classifyHighlight]; norm_num [strengthTypes]

theorem classify_dribble_84 : classifyHighlight "dribble" 0.84 = "strength" := by
  rw [classifyHighlight]; norm_num [strengthTypes]

/-- The fixed content of a simulated envelope: status, the three fixed
events, and the three corresponding highlights. -/
theorem simulateProcessing_fixed_content
    (pid pname url mname mdate u : String) (hids : ℕ → String) :
    (simulateProcessing pid pname url mname mdate true u hids).status
        = "success" ∧
    (simulateProcessing pid pname url mname mdate true u
        hids).analysis.detected_events.map
          (fun e => (e.type, e.start, e.stop)) =
      [("goal", (75 : ℚ), (90 : ℚ)), ("assist", 180, 195),
       ("dribble", 260, 275)] ∧
    (simulateProcessing pid pname url mname mdate true u
        hids).highlights_created = 3 ∧
    (simulateProcessing pid pname url mname mdate true u hids).highlights.map
        (fun h => (h.title, h.type, h.timestamp)) =
      [(pname ++ " - Goal", "strength", ⟨75, 90⟩),
       (pname ++ " - Assist", "strength", ⟨180, 195⟩),
       (pname ++ " - Dribbling Sequence", "strength", ⟨260, 275⟩)] ∧
    (simulateProcessing pid pname url mname mdate true u hids).message
      = "Twelve Labs unavailable. Returned simulated analysis and highlights for local testing." := by
  refine ⟨rfl, ?_, ?_, ?_, rfl⟩
  · simp [simulateProcessing, simulatedEvents]
  · simp [simulateProcessing, simulatedEvents, buildSimHighlights]
  · simp only [simulateProcessing, simulatedEvents, buildSimHighlights,
      createHighlightFromEvent, if_true, List.map_cons, List.map_nil]
    simp [classify_goal_92, classify_assist_88, classify_dribble_84,
      pyRound_num_75, pyRound_num_90, pyRound_num_180, pyRound_num_195,
      pyRound_num_260, pyRound_num_275]

/-- When the service is configured but some collaborator step raises,
the run returns the simulated envelope (the outer `except`). -/
theorem processVideoForPlayer_fallback (steps : RealBranchSteps)
    (pid pname url mname mdate : String) (sourceParsed : ParsedUrl)
    (auto : Bool) (u : String) (hids : ℕ → String)
    (h : someRealStepRaises steps sourceParsed = true) :
    processVideoForPlayer true true steps pid pname url mname mdate
        sourceParsed auto u hids
      = .ok (simulateProcessing pid pname url mname mdate auto u hids) := by
  cases hyd : (isYoutubeUrlParsed sourceParsed && steps.downloadRaises) with
  | true => simp [processVideoForPlayer, hyd]
  | false =>
    cases hu : steps.upload with
    | none => simp [processVideoForPlayer, hyd, hu]
    | some vid =>
      cases ha : steps.analyze with
      | none => simp [processVideoForPlayer, hyd, hu, ha]
      | some a =>
        cases hs : steps.summary with
        | none => simp [processVideoForPlayer, hyd, hu, ha, hs]
        | some s =>
          exfalso
          rw [someRealStepRaises, hyd, hu, ha, hs] at h
          simp at h

/-- When the service is configured and no collaborator step raises, the
run returns the real success envelope of lines 256–266. -/
theorem processVideoForPlayer_real (steps : RealBranchSteps)
    (pid pname url mname mdate : String) (sourceParsed : ParsedUrl)
    (auto : Bool) (u : String) (hids : ℕ → String) (vid : String)
    (a : Analysis) (s : String)
    (hyd : (isYoutubeUrlParsed sourceParsed && steps.downloadRaises) = false)
    (hu : steps.upload = some vid) (ha : steps.analyze = some a)
    (hs : steps.summary = some s) :
    processVideoForPlayer true true steps pid pname url mname mdate
        sourceParsed auto u hids
      = .ok (realProcessing vid a s pid pname url mname mdate sourceParsed
          auto hids) := by
  simp [processVideoForPlayer, hyd, hu, ha, hs]

/-- C3: (a) for every run whose player lookup succeeds — whatever the
source URL, the configured flag and the outcomes of the download,
upload, analysis and summary steps — the returned envelope is
`Except.ok` with status "success" (the real branch hard-codes it, every
failing branch falls back to the simulated envelope); (b) when the
service is unconfigured or any step raises, the result is exactly the
simulated envelope: the fixed event set (goal 75–90, assist 180–195,
dribble 260–275), the three corresponding strength highlights, and the
message reporting that simulated analysis was used. -/
theorem c3_success_envelope_and_fixed_fallback
    (playerFound useTwelveLabs : Bool) (steps : RealBranchSteps)
    (pid pname url mname mdate u : String) (sourceParsed : ParsedUrl)
    (hids : ℕ → String) (hp : playerFound = true) :
    (∃ r : ProcessResult,
      processVideoForPlayer playerFound useTwelveLabs steps pid pname url
          mname mdate sourceParsed true u hids = .ok r ∧
      r.status = "success") ∧
    ((useTwelveLabs = false ∨ someRealStepRaises steps sourceParsed = true) →
      processVideoForPlayer playerFound useTwelveLabs steps pid pname url
          mname mdate sourceParsed true u hids
        = .ok (simulateProcessing pid pname url mname mdate true u hids) ∧
      ((simulateProcessing pid pname url mname mdate true u hids).status
          = "success" ∧
        (simulateProcessing pid pname url mname mdate true u
            hids).analysis.detected_events.map
              (fun e => (e.type, e.start, e.stop)) =
          [("goal", (75 : ℚ), (90 : ℚ)), ("assist", 180, 195),
           ("dribble", 260, 275)] ∧
        (simulateProcessing pid pname url mname mdate true u
            hids).highlights_created = 3 ∧
        (simulateProcessing pid pname url mname mdate true u
            hids).highlights.map (fun h => (h.title, h.type, h.timestamp)) =
          [(pname ++ " - Goal", "strength", ⟨75, 90⟩),
           (pname ++ " - Assist", "strength", ⟨180, 195⟩),
           (pname ++ " - Dribbling Sequence", "strength", ⟨260, 275⟩)] ∧
        (simulateProcessing pid pname url mname mdate true u hids).message
          = "Twelve Labs unavailable. Returned simulated analysis and highlights for local testing.")) := by
  subst hp
  constructor
  · cases useTwelveLabs with
    | false => exact ⟨_, rfl, rfl⟩
    | true =>
      cases h : someRealStepRaises steps sourceParsed with
      | true =>
        exact ⟨_, processVideoForPlayer_fallback steps pid pname url mname
          mdate sourceParsed true u hids h, rfl⟩
      | false =>
        have h2 := h
        rw [someRealStepRaises] at h2
        cases hu : steps.upload with
        | none => rw [hu] at h2; simp at h2
        | some vid =>
          cases ha : steps.analyze with
          | none => rw [ha] at h2; simp at h2
          | some a =>
            cases hs : steps.summary with
            | none => rw [hs] at h2; simp at h2
            | some s =>
              have hyd :
                  (isYoutubeUrlParsed sourceParsed && steps.downloadRaises)
                    = false := by
                rw [hu, ha, hs] at h2
                simpa using h2
              exact ⟨_, processVideoForPlayer_real steps pid pname url mname
                mdate sourceParsed true u hids vid a s hyd hu ha hs, rfl⟩
  · intro hf
    refine ⟨?_, simulateProcessing_fixed_content pid pname url mname mdate u hids⟩
    rcases hf with hf | hf
    · subst hf
      rfl
    · cases useTwelveLabs with
      | false => rfl
      | true =>
        exact processVideoForPlayer_fallback steps pid pname url mname mdate
          sourceParsed true u hids hf

/-- Witness for `c3_success_envelope_and_fixed_fallback`: concrete
unconfigured run for "Test Player", exercising both the success-status
head and the fallback detail. -/
theorem c3_success_envelope_and_fixed_fallback_witness :
    (true = true) ∧
    ((false : Bool) = false ∨
      someRealStepRaises
        { downloadRaises := false, upload := none, analyze := none,
          summary := none }
        { scheme := "http", hostname := some "v", path := "", query := "" }
        = true) ∧
    (∃ r : ProcessResult,
      processVideoForPlayer true false
          { downloadRaises := false, upload := none, analyze := none,
            summary := none }
          "p1" "Test Player" "http://v" "Match" "2024-01-01"
          { scheme := "http", hostname := some "v", path := "", query := "" }
          true "u0" (fun _ => "hid") = .ok r ∧
      r.status = "success") ∧
    (processVideoForPlayer true false
        { downloadRaises := false, upload := none, analyze := none,
          summary := none }
        "p1" "Test Player" "http://v" "Match" "2024-01-01"
        { scheme := "http", hostname := some "v", path := "", query := "" }
        true "u0" (fun _ => "hid")
      = .ok (simulateProcessing "p1" "Test Player" "http://v" "Match"
          "2024-01-01" true "u0" (fun _ => "hid")) ∧
    ((simulateProcessing "p1" "Test Player" "http://v" "Match" "2024-01-01"
          true "u0" (fun _ => "hid")).status = "success" ∧
      (simulateProcessing "p1" "Test Player" "http://v" "Match" "2024-01-01"
          true "u0" (fun _ => "hid")).analysis.detected_events.map
            (fun e => (e.type, e.start, e.stop)) =
        [("goal", (75 : ℚ), (90 : ℚ)), ("assist", 180, 195),
         ("dribble", 260, 275)] ∧
      (simulateProcessing "p1" "Test Player" "http://v" "Match" "2024-01-01"
          true "u0" (fun _ => "hid")).highlights_created = 3 ∧
      (simulateProcessing "p1" "Test Player" "http://v" "Match" "2024-01-01"
          true "u0" (fun _ => "hid")).highlights.map
            (fun h => (h.title, h.type, h.timestamp)) =
        [("Test Player" ++ " - Goal", "strength", ⟨75, 90⟩),
         ("Test Player" ++ " - Assist", "strength", ⟨180, 195⟩),
         ("Test Player" ++ " - Dribbling Sequence", "strength",
           ⟨260, 275⟩)] ∧
      (simulateProcessing "p1" "Test Player" "http://v" "Match" "2024-01-01"
          true "u0" (fun _ => "hid")).message
        = "Twelve Labs unavailable. Returned simulated analysis and highlights for local testing.")) := by
  have h := c3_success_envelope_and_fixed_fallback true false
    { downloadRaises := false, upload := none, analyze := none,
      summary := none }
    "p1" "Test Player" "http://v" "Match" "2024-01-01" "u0"
    { scheme := "http", hostname := some "v", path := "", query := "" }
    (fun _ => "hid") rfl
  exact ⟨rfl, Or.inl rfl, h.1, h.2 (Or.inl rfl)⟩

/-- C4 counterexample: the simulated branch is not identical across two
invocations with the same player name, because the simulated video id is
built from a fresh `uuid.uuid4()` draw: with draws "aaaa" and "bbbb" the
results differ (already in `analysis.video_id`), refuting "including ...
video id, analysis id ... identical, with no randomness". -/
theorem c4_sim_uuid_nondeterminism_counterexample :
    simulateProcessing "p1" "Test Player" "http://v" "Match" "2024-01-01"
        true "aaaa" (fun _ => "hid")
      ≠ simulateProcessing "p1" "Test Player" "http://v" "Match" "2024-01-01"
          true "bbbb" (fun _ => "hid") := by
  intro h
  have hv := congrArg (fun r => r.analysis.video_id) h
  simp only [simulateProcessing] at hv
  exact (by decide : ("simulated-" ++ "aaaa" : String) ≠ "simulated-" ++ "bbbb") hv

/-- The uuid-independent content of a simulated analysis: everything
except the freshly drawn identifiers (video id, analysis id, the per-event
`video_id` back-reference, highlight record ids and thumbnail paths). -/
def analysisContent (a : Analysis) :
    String
      × List (String × ℚ × ℚ × ℚ × Option String × Option String
          × Option String)
      × List KeyMoment × PerformanceMetrics × ℕ × String :=
  (a.status,
   a.detected_events.map
     (fun e => (e.type, e.start, e.stop, e.confidence, e.description,
       e.clip_url, e.video_url)),
   a.key_moments, a.performance_metrics, a.total_events, a.ai_summary)

/-- The uuid-independent content of a pipeline envelope. -/
def resultContent (r : ProcessResult) :
    String × String × String × String
      × (String
          × List (String × ℚ × ℚ × ℚ × Option String × Option String
              × Option String)
          × List KeyMoment × PerformanceMetrics × ℕ × String)
      × ℕ × List (String × String × Timestamp) × String :=
  (r.status, r.player_id, r.player_name, r.matchName,
   analysisContent r.analysis, r.highlights_created,
   r.highlights.map (fun h => (h.title, h.type, h.timestamp)), r.message)

/-- C4 amended: the simulated branch is deterministic given the same
player name and inputs in every field except the freshly generated
identifiers: for any two draws of the uuids, the id-erased contents of
the two results — all event fields apart from the video-id
back-reference, key moments, metrics, summary, counts, highlight titles,
classifications and time ranges, and the message — are identical. -/
theorem c4_sim_deterministic_up_to_ids
    (pid pname url mname mdate : String) (auto : Bool)
    (u u2 : String) (hids hids2 : ℕ → String) :
    resultContent (simulateProcessing pid pname url mname mdate auto u hids) =
      resultContent (simulateProcessing pid pname url mname mdate auto u2 hids2) := by
  cases auto <;>
    simp [resultContent, analysisContent, simulateProcessing,
      simulatedEvents, buildSimHighlights, createHighlightFromEvent]

/-! ### Notification fanout (`ConnectionManager`) -/

/-- A live WebSocket connection, identified by a number. -/
abbrev Conn := ℕ

/-- One delivery round of the broadcast loop over the subscriber set of
one scope (websocket_manager.py lines 55–64 and 71–80): every connection
currently in the set gets one `send_json` attempt; `sendOk c = false`
means that attempt raised, and the `try/except` collects exactly those
connections in `disconnected`, which the final loop then discards from
the set.  Result: (attempted connections, remaining subscriber set).  The
function is total — no delivery failure escapes to the caller. -/
def broadcastScope (subs : Finset Conn) (sendOk : Conn → Bool) :
    Finset Conn × Finset Conn :=
  let disconnected := subs.filter (fun c => sendOk c = false)
  (subs, subs \ disconnected)

/-- Embeds `ConnectionManager.broadcast`: `reg` is `active_connections`
(channel name → subscriber set); an unknown channel returns immediately
with no delivery attempts, otherwise the channel's set goes through one
`broadcastScope` round.  Returns the updated registry and the attempted
connections. -/
def broadcast (reg : String → Option (Finset Conn)) (channel : String)
    (sendOk : Conn → Bool) :
    (String → Option (Finset Conn)) × Finset Conn :=
  match reg channel with
  | none => (reg, ∅)
  | some subs =>
      (fun ch => if ch = channel then some (broadcastScope subs sendOk).2
        else reg ch,
       (broadcastScope subs sendOk).1)

/-- Embeds `ConnectionManager.broadcast_to_player`: the identical loop
over `player_connections[player_id]`. -/
def broadcast_to_player (reg : String → Option (Finset Conn))
    (player_id : String) (sendOk : Conn → Bool) :
    (String → Option (Finset Conn)) × Finset Conn :=
  match reg player_id with
  | none => (reg, ∅)
  | some subs =>
      (fun ch => if ch = player_id then some (broadcastScope subs sendOk).2
        else reg ch,
       (broadcastScope subs sendOk).1)

/-- C5: publishing on a scope attempts delivery to exactly the scope's
current subscriber set; afterwards the scope's set consists of exactly
the connections whose delivery succeeded (every failing connection is
removed, every succeeding one remains), other scopes are untouched, and
`broadcast_to_player` behaves identically on the player registry.  The
embedding is a total function, so no subscriber failure reaches the
publisher. -/
theorem c5_publish_drops_failed_subscribers
    (reg : String → Option (Finset Conn)) (scope : String)
    (sendOk : Conn → Bool) (subs : Finset Conn)
    (h : reg scope = some subs) :
    (broadcast reg scope sendOk).2 = subs ∧
    (broadcast reg scope sendOk).1 scope
      = some (subs.filter (fun c => sendOk c = true)) ∧
    (∀ ch, ch ≠ scope → (broadcast reg scope sendOk).1 ch = reg ch) ∧
    broadcast_to_player reg scope sendOk = broadcast reg scope sendOk := by
  have hset : (broadcastScope subs sendOk).2
      = subs.filter (fun c => sendOk c = true) := by
    show subs \ subs.filter (fun c => sendOk c = false)
      = subs.filter (fun c => sendOk c = true)
    ext c
    simp only [Finset.mem_sdiff, Finset.mem_filter]
    cases hc : sendOk c <;> simp [hc]
  refine ⟨?_, ?_, ?_, rfl⟩
  · simp [broadcast, h, broadcastScope]
  · simp [broadcast, h, hset]
  · intro ch hch
    simp [broadcast, h, hch]

/-- Witness for `c5_publish_drops_failed_subscribers`: "global" channel
with subscribers {0, 1, 2} where delivery to connection 1 fails. -/
theorem c5_publish_drops_failed_subscribers_witness :
    ((fun ch => if ch = "global" then some ({0, 1, 2} : Finset Conn)
        else none) "global" = some ({0, 1, 2} : Finset Conn)) ∧
    ((broadcast
        (fun ch => if ch = "global" then some ({0, 1, 2} : Finset Conn)
          else none)
        "global" (fun c => decide (c ≠ 1))).2 = ({0, 1, 2} : Finset Conn) ∧
      (broadcast
        (fun ch => if ch = "global" then some ({0, 1, 2} : Finset Conn)
          else none)
        "global" (fun c => decide (c ≠ 1))).1 "global"
        = some (({0, 1, 2} : Finset Conn).filter
            (fun c => decide (c ≠ 1) = true)) ∧
      (∀ ch, ch ≠ "global" →
        (broadcast
          (fun ch => if ch = "global" then some ({0, 1, 2} : Finset Conn)
            else none)
          "global" (fun c => decide (c ≠ 1))).1 ch
          = (fun ch => if ch = "global" then some ({0, 1, 2} : Finset Conn)
              else none) ch) ∧
      broadcast_to_player
          (fun ch => if ch = "global" then some ({0, 1, 2} : Finset Conn)
            else none)
          "global" (fun c => decide (c ≠ 1))
        = broadcast
            (fun ch => if ch = "global" then some ({0, 1, 2} : Finset Conn)
              else none)
            "global" (fun c => decide (c ≠ 1))) :=
  ⟨by simp, c5_publish_drops_failed_subscribers _ "global" _ _ (by simp)⟩

/-! ### Temp-directory lifecycle (`_download_youtube_video`,
`_cleanup_file`, `process_video_for_player`) -/

/-- The failure-relevant environment of one pipeline run. -/
structure AcquisitionEnv where
  isYoutube : Bool
  downloadOk : Bool
  trimOk : Bool
  uploadAnalyzeOk : Bool
  keepYtTemp : Bool
deriving Repr, DecidableEq

/-- Embeds the effect of `_download_youtube_video` on the run's temp
directory: result is `(raised, tempDirAlive)`.  `tempfile.mkdtemp`
creates the directory on entry; on any exception in the body the
`except` clause removes it with `shutil.rmtree(..., ignore_errors=True)`
before re-raising.  `_trim_video` catches its own ffmpeg failure and
returns the untrimmed path, so it never raises and — success or failure —
leaves the produced file inside the same temp directory (`trimOk` does
not change aliveness). -/
def downloadYoutubeVideo (downloadOk trimOk : Bool) : Bool × Bool :=
  if downloadOk then (false, if trimOk then true else true)
  else (true, false)

/-- Embeds `_cleanup_file`: with `KEEP_YT_TEMP` set it returns without
touching the file; otherwise it unlinks the file and removes its temp
directory (`ignore_errors=True`, exceptions swallowed), never raising. -/
def cleanupFile (keepYtTemp tempAlive : Bool) : Bool :=
  if keepYtTemp then tempAlive else false

/-- Embeds the temp-file lifecycle of `process_video_for_player`:
whether any temp file created by the run remains after the method
returns.  The unconfigured branch and the non-YouTube branch create no
temp files.  When the download raised, `download_path` is still `None`
so the `finally` block skips `_cleanup_file`, but the directory was
already removed inside `_download_youtube_video`.  When the download
succeeded, the `finally` block runs `_cleanup_file` on every path —
whether the Twelve Labs steps succeed or raise into the simulated
fallback (`uploadAnalyzeOk` does not matter). -/
def processVideoTempRemains (useTwelveLabs : Bool) (env : AcquisitionEnv) :
    Bool :=
  if !useTwelveLabs then false
  else if env.isYoutube then
    match downloadYoutubeVideo env.downloadOk env.trimOk with
    | (true, alive) => alive
    | (false, alive) => cleanupFile env.keepYtTemp alive
  else false

/-- C6: on every exit path of a run (success, transcode failure, download
failure, analysis failure; service configured or not), no temporary file
created by the run remains, unless the KEEP_YT_TEMP debug override is
set. -/
theorem c6_no_temp_files_remain (useTwelveLabs : Bool) (env : AcquisitionEnv)
    (h : env.keepYtTemp = false) :
    processVideoTempRemains useTwelveLabs env = false := by
  obtain ⟨iy, dl, tr, ua, keep⟩ := env
  simp only at h
  subst h
  cases useTwelveLabs <;> cases iy <;> cases dl <;> cases tr <;> cases ua <;>
    decide

/-- Witness for `c6_no_temp_files_remain`: a fully successful configured
YouTube run without the debug override. -/
theorem c6_no_temp_files_remain_witness :
    (({ isYoutube := true, downloadOk := true, trimOk := true,
        uploadAnalyzeOk := true, keepYtTemp := false } : AcquisitionEnv).keepYtTemp
      = false) ∧
    processVideoTempRemains true
      { isYoutube := true, downloadOk := true, trimOk := true,
        uploadAnalyzeOk := true, keepYtTemp := false } = false :=
  ⟨rfl, c6_no_temp_files_remain true
    { isYoutube := true, downloadOk := true, trimOk := true,
      uploadAnalyzeOk := true, keepYtTemp := false } rfl⟩

end ScoutPulse
